import Mathlib

/-!
# Verification of the KubeBlocks reconciliation core

Shallow embedding, in Lean 4, of the two subsystems of the repository that
the specification's claims are about:

* the object-generation transformer of the replicated-state-machine (rsm)
  controller (`src/internal/controller/rsm/transformer_object_generation.go`):
  snapshot diffing, object merge (`copyAndMerge`) and the compatibility-mode
  delete exclusion;
* the horizontal-scaling operation handler
  (`src/controllers/apps/operations/horizontal_scaling.go`): expected-topology
  computation, validation policies, create/delete pod-set derivation,
  conflict handling with earlier operations, and cancellation.

Go maps `map[string]string` are modelled as association lists with Go-map
lookup semantics; Go `sets.Set[string]` as `Finset String`; `int32` as `Int`
(replica counts are small, overflow is irrelevant to the properties at hand);
fallible code returns `Except`.  Functions of the repository that are not part
of the provided sources (only their callers are) are modelled from the
specification and marked as such in their doc comments.
-/

/-! ## Association-list model of Go string maps -/

/-- Go `map[string]string` lookup: the value bound to `k`, if any. -/
def lookupMap (m : List (String × String)) (k : String) : Option String :=
  (m.find? (fun p => p.1 = k)).map Prod.snd

/-! ## rsm object model

`client.Object` values handled by `copyAndMerge` in
`src/internal/controller/rsm/transformer_object_generation.go`.  Each Go
object is modelled with exactly the fields the transformer reads or writes;
the remaining fields of each object are folded into opaque `String`
components (`templateRest`, `specRest`, `metaRest`, ...) that the Go code
moves around wholesale. -/

/-- `*apps.StatefulSet`: labels, annotations, pod-template annotations, the
rest of the pod template, replicas, update strategy, the rest of the spec and
the rest of the metadata. -/
structure StsObj where
  labels : List (String × String)
  annotations : List (String × String)
  templateAnnotations : List (String × String)
  templateRest : String
  replicas : Int
  updateStrategy : String
  specRest : String
  metaRest : String
deriving DecidableEq, Repr

/-- `*corev1.Service`: labels, annotations, the service spec and the rest of
the metadata. -/
structure SvcObj where
  labels : List (String × String)
  annotations : List (String × String)
  spec : String
  metaRest : String
deriving DecidableEq, Repr

/-- `*corev1.ConfigMap`: labels, annotations, `data`, `binaryData` and the
rest of the metadata. -/
structure CmObj where
  labels : List (String × String)
  annotations : List (String × String)
  data : List (String × String)
  binaryData : List (String × String)
  metaRest : String
deriving DecidableEq, Repr

/-- `*corev1.Pod` (the debug pod built by `buildDebugPod` is the one object
kind the transformer generates that `copyAndMerge` has no dedicated branch
for): its content is opaque to the merge. -/
structure PodObj where
  content : String
deriving DecidableEq, Repr

/-- A `client.Object` as seen by the rsm transformer: one of the concrete Go
types that can appear in its snapshots. -/
inductive KObject where
  | sts (s : StsObj)
  | svc (s : SvcObj)
  | cm (c : CmObj)
  | pod (p : PodObj)
deriving DecidableEq, Repr

/-- The concrete Go type of an object, as compared by
`reflect.TypeOf(oldObj) != reflect.TypeOf(newObj)` in `copyAndMerge`. -/
def kindOf : KObject → Nat
  | .sts _ => 0
  | .svc _ => 1
  | .cm _ => 2
  | .pod _ => 3

/-! ## copyAndMerge (transformer_object_generation.go lines 149-205) -/

/-- `mergeMetadataMap(originalMap, targetMap)`: every key of `originalMap`
absent from `targetMap` is copied into it (the Go loop mutates the target map
in place; the model returns the resulting map).  A `nil` map behaves like an
empty one content-wise, so maps are modelled plainly. -/
def mergeMetadataMap (originalMap targetMap : List (String × String)) :
    List (String × String) :=
  originalMap.foldl
    (fun t kv => if (lookupMap t kv.1).isSome then t else t ++ [kv]) targetMap

/-- `copyAndMergeSts`: labels and pod-template annotations are merged keeping
missing old keys, the pod template, replicas and update strategy are replaced
from the new object, everything else keeps the old object's value (the Go
code mutates a deep copy of the old object). -/
def copyAndMergeSts (oldSts newSts : StsObj) : StsObj :=
  { labels := mergeMetadataMap oldSts.labels newSts.labels
    annotations := oldSts.annotations
    templateAnnotations :=
      mergeMetadataMap oldSts.templateAnnotations newSts.templateAnnotations
    templateRest := newSts.templateRest
    replicas := newSts.replicas
    updateStrategy := newSts.updateStrategy
    specRest := oldSts.specRest
    metaRest := oldSts.metaRest }

/-- `copyAndMergeSvc`: annotations are merged keeping missing old keys, the
spec is replaced from the new object, everything else keeps the old value. -/
def copyAndMergeSvc (oldSvc newSvc : SvcObj) : SvcObj :=
  { labels := oldSvc.labels
    annotations := mergeMetadataMap oldSvc.annotations newSvc.annotations
    spec := newSvc.spec
    metaRest := oldSvc.metaRest }

/-- `copyAndMergeCm`: `data` and `binaryData` are replaced from the new
object, everything else keeps the old value. -/
def copyAndMergeCm (oldCm newCm : CmObj) : CmObj :=
  { labels := oldCm.labels
    annotations := oldCm.annotations
    data := newCm.data
    binaryData := newCm.binaryData
    metaRest := oldCm.metaRest }

/-- `copyAndMerge(oldObj, newObj)`: `nil` when the two objects are not of the
same concrete Go type; otherwise a deep copy of the old object merged with
the new one according to the type switch, the `default` branch returning the
new object itself. -/
def copyAndMerge (oldObj newObj : KObject) : Option KObject :=
  if kindOf oldObj ≠ kindOf newObj then none
  else
    match newObj, oldObj with
    | .sts n, .sts o => some (.sts (copyAndMergeSts o n))
    | .svc n, .svc o => some (.svc (copyAndMergeSvc o n))
    | .cm n, .cm o => some (.cm (copyAndMergeCm o n))
    | .pod n, _ => some (.pod n)
    | _, _ => none

/-! ## Snapshot diff (transformer_object_generation.go lines 100-129) -/

/-- `model.GVKNObjKey`: (groupVersionKind, namespace, name), the identity of
a managed child object. -/
structure GVKNObjKey where
  gvk : String
  ns : String
  name : String
deriving DecidableEq, Repr

/-- A cache snapshot: managed objects keyed by `GVKNObjKey`
(`map[model.GVKNObjKey]client.Object`). -/
def Snapshot : Type := List (GVKNObjKey × KObject)

/-- `sets.KeySet(snapshot)`: the key domain of a snapshot. -/
def keySetOf (snap : Snapshot) : Finset GVKNObjKey :=
  (snap.map Prod.fst).toFinset

/-- Snapshot lookup (`snapshot[name]`). -/
def snapLookup (snap : Snapshot) (k : GVKNObjKey) : Option KObject :=
  (snap.find? (fun p => p.1 = k)).map Prod.snd

/-- `createSet := newNameSet.Difference(oldNameSet)`. -/
def createSet (oldSnapshot newSnapshot : Snapshot) : Finset GVKNObjKey :=
  keySetOf newSnapshot \ keySetOf oldSnapshot

/-- `updateSet := newNameSet.Intersection(oldNameSet)`. -/
def updateSet (oldSnapshot newSnapshot : Snapshot) : Finset GVKNObjKey :=
  keySetOf newSnapshot ∩ keySetOf oldSnapshot

/-- `deleteSet := oldNameSet.Difference(newNameSet)`. -/
def deleteSet (oldSnapshot newSnapshot : Snapshot) : Finset GVKNObjKey :=
  keySetOf oldSnapshot \ keySetOf newSnapshot

/-- Whether a stored object is a `*corev1.ConfigMap`
(the `oldSnapshot[name].(*corev1.ConfigMap)` type assertion; a missing entry
is never a ConfigMap). -/
def isConfigMapAt (snap : Snapshot) (k : GVKNObjKey) : Bool :=
  match snapLookup snap k with
  | some (.cm _) => true
  | _ => false

/-- `deleteOrphanObjects` (lines 119-129): the keys for which a delete call
is actually issued to the client.  When the compatibility-mode feature gate
is on, delete-set members whose stored object is a ConfigMap are skipped. -/
def effectiveDeleteSet (compatMode : Bool) (oldSnapshot newSnapshot : Snapshot) :
    Finset GVKNObjKey :=
  (deleteSet oldSnapshot newSnapshot).filter
    (fun k => ¬ (compatMode ∧ isConfigMapAt oldSnapshot k))

/-! ## Horizontal scaling: data model

Types from `apis/apps/v1alpha1` used by
`src/controllers/apps/operations/horizontal_scaling.go`.  `int32` is
modelled as `Int`; `*int32` as `Option Int`. -/

/-- `appsv1alpha1.InstanceTemplate`: a named sub-group of a component with
its own (optional) replica count.  Per-instance overrides play no role in the
scaling logic and are omitted. -/
structure InstanceTemplate where
  name : String
  replicas : Option Int
deriving DecidableEq, Repr

/-- Modelled from the spec: `InstanceTemplate.GetReplicas()` dereferences the
optional per-template replica count (its definition lives in the API package,
outside the provided sources; the accessor defaults to one replica when the
field is unset). -/
def InstanceTemplate.GetReplicas (t : InstanceTemplate) : Int :=
  t.replicas.getD 1

/-- `appsv1alpha1.InstanceReplicasTemplate`: a per-template replica delta. -/
structure InstanceReplicasTemplate where
  name : String
  replicaChanges : Int
deriving DecidableEq, Repr

/-- `appsv1alpha1.ScaleIn` (embedding `ReplicaChanger`): an optional
aggregate `replicaChanges`, per-template deltas, and instances to take
offline by name. -/
structure ScaleIn where
  replicaChanges : Option Int
  instances : List InstanceReplicasTemplate
  onlineInstancesToOffline : List String
deriving DecidableEq, Repr

/-- `appsv1alpha1.ScaleOut` (embedding `ReplicaChanger`): an optional
aggregate `replicaChanges`, per-template deltas, brand-new templates, and
offline instances to bring back online by name. -/
structure ScaleOut where
  replicaChanges : Option Int
  instances : List InstanceReplicasTemplate
  newInstances : List InstanceTemplate
  offlineInstancesToOnline : List String
deriving DecidableEq, Repr

/-- `appsv1alpha1.HorizontalScaling`: the per-component scaling intent —
either an absolute `replicas` value or `scaleIn`/`scaleOut` deltas. -/
structure HorizontalScaling where
  componentName : String
  replicas : Option Int
  scaleIn : Option ScaleIn
  scaleOut : Option ScaleOut
deriving DecidableEq, Repr

/-- `appsv1alpha1.ClusterComponentSpec`: the fields the scaling handler reads
and writes (`Replicas`, `Instances`, `OfflineInstances`); every other field
of the component spec is folded into `others`, which the handler never
touches. -/
structure ClusterComponentSpec where
  replicas : Int
  instances : List InstanceTemplate
  offlineInstances : List String
  others : String
deriving DecidableEq, Repr

/-- `appsv1alpha1.LastComponentConfiguration`: the snapshot of
`(replicas, instances, offlineInstances)` recorded by
`SaveLastConfiguration`.  The Go `Replicas` field is a pointer that the
handler always populates before dereferencing; it is modelled as a plain
value. -/
structure LastComponentConfiguration where
  replicas : Int
  instances : List InstanceTemplate
  offlineInstances : List String
deriving DecidableEq, Repr

/-- `appsv1alpha1.OpsPhase`: the phases of an operation request. -/
inductive OpsPhase where
  | pending
  | creating
  | running
  | cancelling
  | cancelled
  | succeedPhase
  | failed
deriving DecidableEq, Repr

/-- `appsv1alpha1.OpsType`: the operation kinds relevant to the
horizontal-scaling conflict check. -/
inductive OpsType where
  | horizontalScaling
  | start
  | stop
  | other
deriving DecidableEq, Repr

/-- Errors produced by `intctrlutil.NewFatalError`: fatal, non-retryable. -/
inductive OpsError where
  | fatal (msg : String)
deriving DecidableEq, Repr

/-! ## Instance-name derivation (spec §6, "Instance-name derivation
contract")

`intctrlcomp.GenerateAllPodNamesToSet` and its helpers are outside the
provided sources; they are modelled from the spec: a pure, deterministic
function `instanceNames(replicas, instanceTemplates, offlineInstances,
clusterName, componentName)` producing the ordered set of instance
identifiers — per template (and for the remainder, the default unnamed
template) ordinal-suffixed names `parent[-template]-i`, skipping names
listed in `offlineInstances`. -/

/-- Modelled from the spec: the identifier of ordinal `i` of template
`tpl` under `parent` (empty `tpl` is the default template). -/
def mkInstanceName (parent tpl : String) (i : Nat) : String :=
  if tpl = "" then parent ++ "-" ++ toString i
  else parent ++ "-" ++ tpl ++ "-" ++ toString i

/-- Modelled from the spec: the first `count` ordinal names of a template,
scanning ordinals upward from zero and skipping names in `offline`. -/
def generateInstanceNames (parent tpl : String) (count : Nat)
    (offline : List String) : List String :=
  ((((List.range (count + offline.length)).map
      (mkInstanceName parent tpl)).filter
        (fun n => ¬ offline.contains n)).take count)

/-- Modelled from the spec: all instance names of a component — each named
template contributes `GetReplicas` names and the remainder (when the
templates do not exhaust `replicas`) comes from the default template. -/
def generateAllInstanceNames (parent : String) (replicas : Int)
    (tpls : List InstanceTemplate) (offline : List String) : List String :=
  let tplNames := tpls.flatMap
    (fun t => generateInstanceNames parent t.name t.GetReplicas.toNat offline)
  let total : Int := tpls.foldl (fun acc t => acc + t.GetReplicas) 0
  tplNames ++
    (if total < replicas then
      generateInstanceNames parent "" (replicas - total).toNat offline
    else [])

/-- Modelled from the spec: `intctrlcomp.GenerateAllPodNamesToSet` — the
instance-name set of `(replicas, instanceTemplates, offlineInstances,
clusterName, componentName)`.  The Go function returns a map from each name
to its template name; since the value is a pure function of the key
(`GetInstanceTemplateName`), the model keeps the key list. -/
def GenerateAllPodNamesToSet (replicas : Int) (tpls : List InstanceTemplate)
    (offline : List String) (clusterName compName : String) : List String :=
  generateAllInstanceNames (clusterName ++ "-" ++ compName) replicas tpls offline

/-- Modelled from the spec: splitting a string at `-`, as `strings.Split`
does (kept on character lists for executability). -/
def splitOnDash (cs : List Char) (cur : List Char) : List String :=
  match cs with
  | [] => [String.mk cur.reverse]
  | c :: rest =>
    if c = '-' then String.mk cur.reverse :: splitOnDash rest []
    else splitOnDash rest (c :: cur)

/-- Modelled from the spec: `appsv1alpha1.GetInstanceTemplateName` recovers
the template name from an instance identifier — strip the
`cluster-component-` prefix, drop the trailing ordinal; a name whose last
segment is not numeric, or with nothing before the ordinal, belongs to the
default template (empty name). -/
def GetInstanceTemplateName (clusterName compName insName : String) : String :=
  let key := (clusterName ++ "-" ++ compName ++ "-").toList
  let rest := if key.isPrefixOf insName.toList
    then insName.toList.drop key.length else insName.toList
  let split := splitOnDash rest []
  match split.getLast? with
  | none => ""
  | some last =>
    if last.length > 0 ∧ last.toList.all Char.isDigit then
      match split with
      | [] => ""
      | [_] => ""
      | _ => String.intercalate "-" (split.dropLast)
    else ""

/-- Modelled from the spec:
`OpsRequest.CountOfflineOrOnlineInstances(clusterName, componentName,
instanceNameList)` — how many of the named instances fall in each instance
template (keyed by template name, the default template being the empty
name).  The Go map is modelled as an association list in first-insertion
order. -/
def bumpCount (m : List (String × Int)) (k : String) : List (String × Int) :=
  match m with
  | [] => [(k, 1)]
  | (k', v) :: rest =>
    if k' = k then (k', v + 1) :: rest else (k', v) :: bumpCount rest k

/-- Modelled from the spec: see `bumpCount`; counts per template name. -/
def CountOfflineOrOnlineInstances (clusterName compName : String)
    (instanceNameList : List String) : List (String × Int) :=
  instanceNameList.foldl
    (fun m insName => bumpCount m (GetInstanceTemplateName clusterName compName insName)) []

/-! ## Expected-topology computation
(horizontal_scaling.go lines 318-503) -/

/-- `filterHorizontalScalingSpec` (lines 348-380): only currently online
instances may be taken offline (names not in the pod set are dropped from
`scaleIn.onlineInstancesToOffline`), and only currently offline instances
may be taken online (names not in the offline set are dropped from
`scaleOut.offlineInstancesToOnline`).  The Go code rebuilds both lists
through a `sets.Set`, deduplicating them.  This is the scale-in half. -/
def filterScaleIn (podSet : List String) : Option ScaleIn → Option ScaleIn
  | some si =>
    if si.onlineInstancesToOffline ≠ [] then
      some { si with onlineInstancesToOffline :=
        (si.onlineInstancesToOffline.filter (fun n => podSet.contains n)).dedup }
    else some si
  | none => none

/-- The scale-out half of `filterHorizontalScalingSpec`: names not in the
offline set are dropped from `offlineInstancesToOnline`. -/
def filterScaleOut (compOfflineInstances : List String) :
    Option ScaleOut → Option ScaleOut
  | some so =>
    if so.offlineInstancesToOnline ≠ [] then
      some { so with offlineInstancesToOnline :=
        (so.offlineInstancesToOnline.filter
          (fun n => compOfflineInstances.contains n)).dedup }
    else some so
  | none => none

/-- `filterHorizontalScalingSpec` (lines 348-380), assembled from its two
halves (the Go code mutates the two list fields of a deep copy of the
intent). -/
def filterHorizontalScalingSpec (clusterName : String) (compReplicas : Int)
    (compInstanceTpls : List InstanceTemplate)
    (compOfflineInstances : List String)
    (horizontalScaling : HorizontalScaling) : HorizontalScaling :=
  let podSet := GenerateAllPodNamesToSet compReplicas compInstanceTpls
    compOfflineInstances clusterName horizontalScaling.componentName
  { horizontalScaling with
    scaleIn := filterScaleIn podSet horizontalScaling.scaleIn
    scaleOut := filterScaleOut compOfflineInstances horizontalScaling.scaleOut }

/-- `getSyncedInstancesAndReplicaChanges` (lines 390-416): sums the explicit
per-template deltas, synthesizes a per-template delta for each counted
online/offline instance whose template has no explicit entry (the default
template, keyed by the empty name, contributes only to the aggregate), adds
the replicas of brand-new templates, and lets an explicitly supplied
aggregate `replicaChanges` override the synthesized total. -/
def getSyncedInstancesAndReplicaChanges
    (offlineOrOnlineInsCountMap : List (String × Int))
    (changerReplicaChanges : Option Int)
    (changerInstances : List InstanceReplicasTemplate)
    (newInstances : List InstanceTemplate) :
    List InstanceReplicasTemplate × Option Int :=
  let allFromInstances : Int :=
    changerInstances.foldl (fun acc v => acc + v.replicaChanges) 0
  let step := offlineOrOnlineInsCountMap.foldl
    (fun (p : List InstanceReplicasTemplate × Int) kv =>
      if kv.1 = "" then (p.1, p.2 + kv.2)
      else if changerInstances.any (fun v => v.name = kv.1) then p
      else (p.1 ++ [⟨kv.1, kv.2⟩], p.2 + kv.2))
    (changerInstances, allFromInstances)
  let allReplicaChanges : Int :=
    step.2 + newInstances.foldl (fun acc v => acc + v.GetReplicas) 0
  match changerReplicaChanges with
  | some c => (step.1, some c)
  | none => (step.1, some allReplicaChanges)

/-- `autoSyncReplicaChanges` (lines 383-430): rewrites the scale-in and
scale-out blocks with synchronized per-template deltas and aggregate
`replicaChanges` (the Go code mutates them through pointers; the model
returns the rewritten intent).  The unused Go parameters (component
replicas, templates, expected offline instances) are omitted.  This is the
scale-in half. -/
def syncScaleIn (clusterName compName : String) :
    Option ScaleIn → Option ScaleIn
  | some scaleIn =>
    let offlineInsCountMap := CountOfflineOrOnlineInstances clusterName
      compName scaleIn.onlineInstancesToOffline
    let synced := getSyncedInstancesAndReplicaChanges offlineInsCountMap
      scaleIn.replicaChanges scaleIn.instances []
    some { scaleIn with instances := synced.1, replicaChanges := synced.2 }
  | none => none

/-- The scale-out half of `autoSyncReplicaChanges`. -/
def syncScaleOut (clusterName compName : String) :
    Option ScaleOut → Option ScaleOut
  | some scaleOut =>
    let onlineInsCountMap := CountOfflineOrOnlineInstances clusterName
      compName scaleOut.offlineInstancesToOnline
    let synced := getSyncedInstancesAndReplicaChanges onlineInsCountMap
      scaleOut.replicaChanges scaleOut.instances scaleOut.newInstances
    some { scaleOut with instances := synced.1, replicaChanges := synced.2 }
  | none => none

/-- `autoSyncReplicaChanges` (lines 383-430), assembled from its two
halves. -/
def autoSyncReplicaChanges (clusterName : String)
    (horizontalScaling : HorizontalScaling) : HorizontalScaling :=
  { horizontalScaling with
    scaleIn := syncScaleIn clusterName horizontalScaling.componentName
      horizontalScaling.scaleIn
    scaleOut := syncScaleOut clusterName horizontalScaling.componentName
      horizontalScaling.scaleOut }

/-- `getCompExpectReplicas` (lines 433-445): an absolute `replicas` wins;
otherwise the scale-out aggregate is added to and the scale-in aggregate
subtracted from the baseline replica count. -/
def getCompExpectReplicas (horizontalScaling : HorizontalScaling)
    (compReplicas : Int) : Int :=
  match horizontalScaling.replicas with
  | some r => r
  | none =>
    let r1 := match horizontalScaling.scaleOut with
      | some so => match so.replicaChanges with
        | some c => compReplicas + c
        | none => compReplicas
      | none => compReplicas
    match horizontalScaling.scaleIn with
    | some si => match si.replicaChanges with
      | some c => r1 - c
      | none => r1
    | none => r1

/-- The index map `compInsTplSet` of `getCompExpectedInstances` (lines
455-458): template name to index, a later duplicate name overriding an
earlier one. -/
def insTplIndexOf (tpls : List InstanceTemplate) (name : String) : Option Nat :=
  match tpls.reverse.findIdx? (fun t => t.name = name) with
  | none => none
  | some j => some (tpls.length - 1 - j)

/-- `handleInstanceTplReplicaChanges` (lines 459-471): applies per-template
deltas by index into the (possibly extended) template list; deltas naming a
template absent from the original list `tpls0` are skipped. -/
def handleInstanceTplReplicaChanges (tpls0 : List InstanceTemplate)
    (cur : List InstanceTemplate) (changes : List InstanceReplicasTemplate)
    (isScaleIn : Bool) : List InstanceTemplate :=
  changes.foldl
    (fun cur v =>
      match insTplIndexOf tpls0 v.name with
      | none => cur
      | some i =>
        match cur.get? i with
        | none => cur
        | some t =>
          let newReplicas : Int :=
            if isScaleIn then t.GetReplicas - v.replicaChanges
            else t.GetReplicas + v.replicaChanges
          cur.set i { t with replicas := some newReplicas })
    cur

/-- `getCompExpectedInstances` (lines 448-480): with an absolute `replicas`
the templates pass through unchanged; otherwise the scale-out's brand-new
templates are appended, its per-template deltas added, and the scale-in's
per-template deltas subtracted (the index map is built from the original
template list, before the append). -/
def getCompExpectedInstances (compInstanceTpls : List InstanceTemplate)
    (horizontalScaling : HorizontalScaling) : List InstanceTemplate :=
  match horizontalScaling.replicas with
  | some _ => compInstanceTpls
  | none =>
    let afterOut := match horizontalScaling.scaleOut with
      | some so =>
        handleInstanceTplReplicaChanges compInstanceTpls
          (compInstanceTpls ++ so.newInstances) so.instances false
      | none => compInstanceTpls
    match horizontalScaling.scaleIn with
    | some si =>
      handleInstanceTplReplicaChanges compInstanceTpls afterOut
        si.instances true
    | none => afterOut

/-- `handleOfflineInstances` (lines 487-495): appends to
`newOfflineInstances` every base name absent from the compared set. -/
def handleOfflineInstances
    (baseInstanceNames comparedInstanceNames newOfflineInstances : List String) :
    List String :=
  newOfflineInstances ++
    baseInstanceNames.filter (fun n => ¬ comparedInstanceNames.contains n)

/-- `getCompExpectedOfflineInstances` (lines 483-503): instances taken
offline by scale-in are added to the offline set, instances brought online
by scale-out are removed from it. -/
def getCompExpectedOfflineInstances (compOfflineInstances : List String)
    (horizontalScaling : HorizontalScaling) : List String :=
  let l1 := match horizontalScaling.scaleIn with
    | some si =>
      if si.onlineInstancesToOffline ≠ [] then
        handleOfflineInstances si.onlineInstancesToOffline
          compOfflineInstances compOfflineInstances
      else compOfflineInstances
    | none => compOfflineInstances
  match horizontalScaling.scaleOut with
  | some so =>
    if so.offlineInstancesToOnline ≠ [] then
      handleOfflineInstances l1 so.offlineInstancesToOnline []
    else l1
  | none => l1

/-- The result of `getExpectedCompValues`: the expected replicas, instance
templates and offline instances of a component. -/
structure ExpectedCompValues where
  replicas : Int
  instances : List InstanceTemplate
  offlineInstances : List String
deriving DecidableEq, Repr

/-- `getExpectedCompValues` (lines 319-344): in absolute mode the baseline is
the live component spec; in delta mode it is the last-configuration
snapshot.  The intent is filtered, the expected offline set computed from
the filtered intent, the replica deltas auto-synced, and the expected
replicas and templates derived from the synced intent.  (The Go error paths
stem only from instance-name generation, which the model keeps total.) -/
def getExpectedCompValues (clusterName : String)
    (compSpec : ClusterComponentSpec)
    (lastCompConfiguration : LastComponentConfiguration)
    (horizontalScaling : HorizontalScaling) : ExpectedCompValues :=
  let compReplicas := match horizontalScaling.replicas with
    | some _ => compSpec.replicas
    | none => lastCompConfiguration.replicas
  let compInstanceTpls := match horizontalScaling.replicas with
    | some _ => compSpec.instances
    | none => lastCompConfiguration.instances
  let compOfflineInstances := match horizontalScaling.replicas with
    | some _ => compSpec.offlineInstances
    | none => lastCompConfiguration.offlineInstances
  let filteredHorizontal := filterHorizontalScalingSpec clusterName
    compReplicas compInstanceTpls compOfflineInstances horizontalScaling
  let expectOfflineInstances :=
    getCompExpectedOfflineInstances compOfflineInstances filteredHorizontal
  let synced := autoSyncReplicaChanges clusterName filteredHorizontal
  { replicas := getCompExpectReplicas synced compReplicas
    instances := getCompExpectedInstances compInstanceTpls synced
    offlineInstances := expectOfflineInstances }

/-! ## Validation (horizontal_scaling.go lines 505-612) -/

/-- Modelled from the spec: the value of
`constant.HscaleValidatePolicyStrict` (the constants package is outside the
provided sources); requests whose policy annotation differs from it are
validated permissively. -/
def HscaleValidatePolicyStrict : String := "strict"

/-- `collectOnlineAndOfflineAndNotExistInstances` (lines 564-584): each
named instance is classified — members of the offline set first, then
members of the current pod set, the rest being non-existent. -/
def collectOnlineAndOfflineAndNotExistInstances (insNames : List String)
    (offlineInstances : Finset String) (currPodSet : List String) :
    Finset String × Finset String × Finset String :=
  insNames.foldl
    (fun acc insName =>
      if insName ∈ offlineInstances then
        (acc.1, insert insName acc.2.1, acc.2.2)
      else if currPodSet.contains insName then
        (insert insName acc.1, acc.2.1, acc.2.2)
      else (acc.1, acc.2.1, insert insName acc.2.2))
    (∅, ∅, ∅)

/-- `collecteAllTypeOfInstancesFromOps` (lines 536-561): the online
instances named by scale-in, the offline instances named by scale-out, and
the union of the non-existent names from both lists. -/
def collecteAllTypeOfInstancesFromOps (horizontalScaling : HorizontalScaling)
    (currPodSet : List String) (offlineInstances : Finset String) :
    Finset String × Finset String × Finset String :=
  let fromScaleIn := match horizontalScaling.scaleIn with
    | some si =>
      if si.onlineInstancesToOffline ≠ [] then
        let c := collectOnlineAndOfflineAndNotExistInstances
          si.onlineInstancesToOffline offlineInstances currPodSet
        (c.1, c.2.2)
      else (∅, ∅)
    | none => (∅, ∅)
  let fromScaleOut := match horizontalScaling.scaleOut with
    | some so =>
      if so.offlineInstancesToOnline ≠ [] then
        let c := collectOnlineAndOfflineAndNotExistInstances
          so.offlineInstancesToOnline offlineInstances currPodSet
        (c.2.1, c.2.2)
      else (∅, ∅)
    | none => (∅, ∅)
  (fromScaleIn.1, fromScaleOut.1, fromScaleIn.2 ∪ fromScaleOut.2)

/-- Modelled from the spec: `getMissingElementsInSetFromList` (defined in a
utility file outside the provided sources) — the list elements missing from
the set, in list order; empty exactly when every element is present. -/
def getMissingElementsInSetFromList (s : Finset String) (list : List String) :
    List String :=
  list.filter (fun x => x ∉ s)

/-- `strictPolicyValidation` (lines 589-612): under the strict policy a
scale-in (resp. scale-out) list whose distinct online (resp. offline)
members do not number exactly its length is rejected — with a duplicate
message when no element is missing from the collected set, and a
not-online/not-offline message otherwise. -/
def strictPolicyValidation (horizontalScaling : HorizontalScaling)
    (onlinedInstanceFromScaleInOps offlinedInstanceFromScaleOutOps : Finset String) :
    Except OpsError Unit :=
  let scaleInCheck : Except OpsError Unit :=
    match horizontalScaling.scaleIn with
    | some si =>
      if si.onlineInstancesToOffline ≠ [] then
        if onlinedInstanceFromScaleInOps.card ≠ si.onlineInstancesToOffline.length then
          if getMissingElementsInSetFromList onlinedInstanceFromScaleInOps
              si.onlineInstancesToOffline = [] then
            Except.error (.fatal "instances specified in onlineInstancesToOffline has duplicates")
          else
            Except.error (.fatal "instances specified in onlineInstancesToOffline is not online or not exist")
        else Except.ok ()
      else Except.ok ()
    | none => Except.ok ()
  match scaleInCheck with
  | Except.error e => Except.error e
  | Except.ok _ =>
    match horizontalScaling.scaleOut with
    | some so =>
      if so.offlineInstancesToOnline ≠ [] then
        if offlinedInstanceFromScaleOutOps.card ≠ so.offlineInstancesToOnline.length then
          if getMissingElementsInSetFromList offlinedInstanceFromScaleOutOps
              so.offlineInstancesToOnline = [] then
            Except.error (.fatal "instances specified in onlineInstancesToOffline has duplicates")
          else
            Except.error (.fatal "instances specified in offlineInstancesToOnline is not offline or not exist")
        else Except.ok ()
      else Except.ok ()
    | none => Except.ok ()

/-- `validateHorizontalScalingWithPolicy` (lines 507-533): a non-existent
named instance is always fatal; when the request carries a policy annotation
other than the strict one, validation stops there; otherwise (no annotation,
or the strict annotation) the strict checks run. -/
def validateHorizontalScalingWithPolicy (clusterName : String)
    (policyAnn : Option String)
    (lastCompConfiguration : LastComponentConfiguration)
    (horizontalScaling : HorizontalScaling) : Except OpsError Unit :=
  let currPodSet := GenerateAllPodNamesToSet lastCompConfiguration.replicas
    lastCompConfiguration.instances lastCompConfiguration.offlineInstances
    clusterName horizontalScaling.componentName
  let offlineInstances := lastCompConfiguration.offlineInstances.toFinset
  let c := collecteAllTypeOfInstancesFromOps horizontalScaling currPodSet
    offlineInstances
  if 0 < c.2.2.card then
    Except.error (.fatal "instances specified in the request is not exist")
  else if (match policyAnn with
    | some policy => policy != HscaleValidatePolicyStrict
    | none => false) then
    Except.ok ()
  else strictPolicyValidation horizontalScaling c.1 c.2.1

/-! ## Action (horizontal_scaling.go lines 101-129) -/

/-- The sum of the per-template replica counts (`insReplicas` of the Action
step, lines 113-116). -/
def sumTplReplicas (instances : List InstanceTemplate) : Int :=
  instances.foldl (fun acc v => acc + v.GetReplicas) 0

/-- The per-component body of `Action`'s
`updateClusterComponentsAndShardings` callback (lines 101-126): validate the
request, compute the expected topology, reject it fatally when the template
replicas exceed the component replicas, and otherwise write the expected
values into the component spec. -/
def actionUpdateComponent (clusterName : String)
    (policyAnn : Option String) (compSpec : ClusterComponentSpec)
    (lastCompConfiguration : LastComponentConfiguration)
    (horizontalScaling : HorizontalScaling) :
    Except OpsError ClusterComponentSpec :=
  match validateHorizontalScalingWithPolicy clusterName policyAnn
      lastCompConfiguration horizontalScaling with
  | Except.error e => Except.error e
  | Except.ok _ =>
    let ev := getExpectedCompValues clusterName compSpec
      lastCompConfiguration horizontalScaling
    if sumTplReplicas ev.instances > ev.replicas then
      Except.error (.fatal
        ("the total number of replicas for the instance template can not greater than the number of replicas for component \""
          ++ horizontalScaling.componentName ++ "\" after horizontally scaling"))
    else
      Except.ok { compSpec with
        replicas := ev.replicas
        instances := ev.instances
        offlineInstances := ev.offlineInstances }

/-! ## Create/delete pod sets and cancellation
(horizontal_scaling.go lines 180-285) -/

/-- `SaveLastConfiguration`'s `getLastComponentInfo` (lines 183-190): the
snapshot of the component spec taken before the action mutates it. -/
def getLastComponentInfo (compSpec : ClusterComponentSpec) :
    LastComponentConfiguration :=
  { replicas := compSpec.replicas
    instances := compSpec.instances
    offlineInstances := compSpec.offlineInstances }

/-- `getCreateAndDeletePodSet` (lines 196-243): the pod names created and
deleted by the operation — the set difference of the expected pod set
against the last-configuration pod set, the raw scale-in names always added
to the delete set and the raw scale-out names to the create set; while the
request is in the `Cancelling` phase the two sets are returned swapped. -/
def getCreateAndDeletePodSet (clusterName : String) (opsPhase : OpsPhase)
    (lastCompConfiguration : LastComponentConfiguration)
    (currCompSpec : ClusterComponentSpec)
    (horizontalScaling : HorizontalScaling) (fullCompName : String) :
    Finset String × Finset String :=
  let lastPodSet := (GenerateAllPodNamesToSet lastCompConfiguration.replicas
    lastCompConfiguration.instances lastCompConfiguration.offlineInstances
    clusterName fullCompName).toFinset
  let ev := getExpectedCompValues clusterName currCompSpec
    lastCompConfiguration horizontalScaling
  let currPodSet := (GenerateAllPodNamesToSet ev.replicas ev.instances
    ev.offlineInstances clusterName fullCompName).toFinset
  let createPodSet := currPodSet \ lastPodSet
  let deletePodSet := lastPodSet \ currPodSet
  let deletePodSet := match horizontalScaling.scaleIn with
    | some si => deletePodSet ∪ si.onlineInstancesToOffline.toFinset
    | none => deletePodSet
  let createPodSet := match horizontalScaling.scaleOut with
    | some so => createPodSet ∪ so.offlineInstancesToOnline.toFinset
    | none => createPodSet
  if opsPhase = OpsPhase.cancelling then (deletePodSet, createPodSet)
  else (createPodSet, deletePodSet)

/-- The per-component body of `Cancel`'s `cancelComponentOps` callback
(lines 248-252): the three scaled fields of the component spec are reverted
from the recorded last configuration; nothing else is touched. -/
def cancelRevertComponent (lastConfig : LastComponentConfiguration)
    (comp : ClusterComponentSpec) : ClusterComponentSpec :=
  { comp with
    replicas := lastConfig.replicas
    instances := lastConfig.instances
    offlineInstances := lastConfig.offlineInstances }

/-! ## Conflict handling with earlier operations
(horizontal_scaling.go lines 70-99 and 288-316) -/

/-- The cluster-level inputs the conflict check reads: the cluster name, the
live component spec of the earlier operation's component
(`getComponentSpecOrShardingTemplate`), the phase and per-component last
configuration of the current request, and the phase and per-component last
configuration of the earlier request. -/
structure ConflictCheckCtx where
  clusterName : String
  compSpec : ClusterComponentSpec
  currentPhase : OpsPhase
  currentLastCfg : LastComponentConfiguration
  earlierPhase : OpsPhase
  earlierLastCfg : LastComponentConfiguration
deriving Repr

/-- The `getCreatedOrDeletedPodSet` closure of
`checkIntersectionWithEarlierOps` (lines 290-299): recompute the expected
topology of the given intent from the given last-configuration snapshot over
the live component spec, and derive its create/delete pod sets.  Both
invocations use the current request's phase and the earlier operation's
component name, exactly as the source does. -/
def getCreatedOrDeletedPodSet (ctx : ConflictCheckCtx)
    (lastCompSnapshot : LastComponentConfiguration)
    (hScaling : HorizontalScaling) (earlierCompName : String) :
    Finset String × Finset String :=
  let ev := getExpectedCompValues ctx.clusterName ctx.compSpec
    lastCompSnapshot hScaling
  let compSpec := { ctx.compSpec with
    replicas := ev.replicas
    instances := ev.instances
    offlineInstances := ev.offlineInstances }
  getCreateAndDeletePodSet ctx.clusterName ctx.currentPhase lastCompSnapshot
    compSpec hScaling earlierCompName

/-- `checkIntersectionWithEarlierOps` (lines 288-316): fatal when an
instance deleted by the current request is in the set of instances created
by the earlier, recomputed operation.  (The Go error message names one
offending pod, picked in Go-map iteration order; the model keeps the message
deterministic by naming only the earlier request.) -/
def checkIntersectionWithEarlierOps (ctx : ConflictCheckCtx)
    (earlierOpsName : String)
    (currOpsHScaling earlierOpsHScaling : HorizontalScaling) :
    Except OpsError Unit :=
  let createdPodSetForEarlier := (getCreatedOrDeletedPodSet ctx
    ctx.earlierLastCfg earlierOpsHScaling earlierOpsHScaling.componentName).1
  let deletedPodSetForCurrent := (getCreatedOrDeletedPodSet ctx
    ctx.currentLastCfg currOpsHScaling earlierOpsHScaling.componentName).2
  if (deletedPodSetForCurrent ∩ createdPodSetForEarlier).Nonempty then
    Except.error (.fatal
      ("instance cannot be taken offline as it has been created by another running opsRequest \""
        ++ earlierOpsName ++ "\""))
  else Except.ok ()

/-- The loop body of the abort-decision callback of `Action` (lines 73-96),
over the earlier request's `HorizontalScalingList`: a component absent from
the current request ends the scan without conflict; an absolute replica
count on either side aborts the earlier request; a pending earlier request
is left alone; otherwise the intersection check may fail the current
request. -/
def abortEarlierOpsGo (ctx : ConflictCheckCtx)
    (currentCompOps : List HorizontalScaling) (earlierOpsName : String) :
    List HorizontalScaling → Except OpsError Bool
  | [] => Except.ok false
  | v :: rest =>
    match currentCompOps.find? (fun c => c.componentName = v.componentName) with
    | none => Except.ok false
    | some currHorizontalScaling =>
      if currHorizontalScaling.replicas ≠ none ∨ v.replicas ≠ none then
        Except.ok true
      else if ctx.earlierPhase = OpsPhase.pending then Except.ok false
      else
        match checkIntersectionWithEarlierOps ctx earlierOpsName
            currHorizontalScaling v with
        | Except.error e => Except.error e
        | Except.ok _ => abortEarlierOpsGo ctx currentCompOps earlierOpsName rest

/-- The abort-decision callback passed to
`abortEarlierOpsRequestWithSameKind` by `Action` (lines 72-97): `ok true`
aborts the earlier request, `ok false` leaves it alone, and an error fails
the current request's action. -/
def abortEarlierOpsDecision (ctx : ConflictCheckCtx)
    (currentCompOps : List HorizontalScaling) (earlierOpsName : String)
    (earlierOpsType : OpsType) (earlierList : List HorizontalScaling) :
    Except OpsError Bool :=
  if earlierOpsType = OpsType.start ∨ earlierOpsType = OpsType.stop then
    Except.ok true
  else abortEarlierOpsGo ctx currentCompOps earlierOpsName earlierList

/-! ## Helper lemmas: metadata-map merging -/

/-- The key-wise preference used to describe merged metadata maps: the new
binding wins, an old binding survives only where the new map has none. -/
def preferNew (newVal oldVal : Option String) : Option String :=
  match newVal with
  | some v => some v
  | none => oldVal

theorem preferNew_none_right (x : Option String) : preferNew x none = x := by
  cases x <;> rfl

theorem lookupMap_nil (k : String) : lookupMap [] k = none := rfl

theorem preferNew_flatten (a b : Option String) :
    preferNew (preferNew a none) b = preferNew a b := by
  cases a <;> rfl

theorem lookupMap_cons (kv : String × String) (l : List (String × String))
    (k : String) :
    lookupMap (kv :: l) k = if kv.1 = k then some kv.2 else lookupMap l k := by
  by_cases h : kv.1 = k <;> simp [lookupMap, List.find?_cons, h]

theorem lookupMap_append (l₁ l₂ : List (String × String)) (k : String) :
    lookupMap (l₁ ++ l₂) k = preferNew (lookupMap l₁ k) (lookupMap l₂ k) := by
  induction l₁ with
  | nil => simp [lookupMap, preferNew]
  | cons kv rest ih =>
    by_cases h : kv.1 = k <;>
      simp [List.cons_append, lookupMap_cons, h, preferNew, ih]

theorem mergeMetadataMap_cons (kv : String × String)
    (rest target : List (String × String)) :
    mergeMetadataMap (kv :: rest) target =
      mergeMetadataMap rest
        (if (lookupMap target kv.1).isSome then target else target ++ [kv]) := by
  simp [mergeMetadataMap]

/-- Key-wise behaviour of `mergeMetadataMap`: the target (new) binding wins,
and an original (old) binding survives exactly where the target has none. -/
theorem lookupMap_mergeMetadataMap (original target : List (String × String))
    (k : String) :
    lookupMap (mergeMetadataMap original target) k =
      preferNew (lookupMap target k) (lookupMap original k) := by
  induction original generalizing target with
  | nil =>
    simp [mergeMetadataMap, lookupMap, preferNew_none_right]
  | cons kv rest ih =>
    rw [mergeMetadataMap_cons]
    by_cases h1 : (lookupMap target kv.1).isSome
    · simp only [h1, if_pos, ih]
      by_cases hk : kv.1 = k
      · obtain ⟨v, hv⟩ := Option.isSome_iff_exists.mp h1
        rw [hk] at hv
        simp [lookupMap_cons, hk, hv, preferNew]
      · simp [lookupMap_cons, hk]
    · simp only [h1, if_neg, Bool.not_eq_true, ih, lookupMap_append]
      by_cases hk : kv.1 = k
      · have hnone : lookupMap target k = none := by
          rw [← hk]
          exact Option.not_isSome_iff_eq_none.mp h1
        simp [lookupMap_cons, hk, hnone, preferNew, lookupMap_nil]
      · simp [lookupMap_cons, hk, lookupMap_nil, preferNew_flatten]

/-! ## Claims C5 and C7: snapshot diff and compatibility exclusion -/

/-- **C5**: the diff step partitions keys by plain set algebra — the create
set is desired-keys minus observed-keys, the update set their intersection,
the delete set observed-keys minus desired-keys, and every key of either
snapshot falls in exactly one of the three. -/
theorem diff_partitions_by_set_algebra (oldSnapshot newSnapshot : Snapshot) :
    (∀ k, k ∈ createSet oldSnapshot newSnapshot ↔
      k ∈ keySetOf newSnapshot ∧ k ∉ keySetOf oldSnapshot) ∧
    (∀ k, k ∈ updateSet oldSnapshot newSnapshot ↔
      k ∈ keySetOf newSnapshot ∧ k ∈ keySetOf oldSnapshot) ∧
    (∀ k, k ∈ deleteSet oldSnapshot newSnapshot ↔
      k ∈ keySetOf oldSnapshot ∧ k ∉ keySetOf newSnapshot) ∧
    (∀ k, k ∈ keySetOf oldSnapshot ∪ keySetOf newSnapshot →
      (k ∈ createSet oldSnapshot newSnapshot ∧
        k ∉ updateSet oldSnapshot newSnapshot ∧
        k ∉ deleteSet oldSnapshot newSnapshot) ∨
      (k ∉ createSet oldSnapshot newSnapshot ∧
        k ∈ updateSet oldSnapshot newSnapshot ∧
        k ∉ deleteSet oldSnapshot newSnapshot) ∨
      (k ∉ createSet oldSnapshot newSnapshot ∧
        k ∉ updateSet oldSnapshot newSnapshot ∧
        k ∈ deleteSet oldSnapshot newSnapshot)) := by
  refine ⟨?_, ?_, ?_, ?_⟩
  · intro k; simp [createSet, Finset.mem_sdiff]
  · intro k; simp [updateSet, Finset.mem_inter, and_comm]
  · intro k; simp [deleteSet, Finset.mem_sdiff]
  · intro k hk
    simp only [createSet, updateSet, deleteSet, Finset.mem_sdiff,
      Finset.mem_inter, Finset.mem_union] at hk ⊢
    tauto

/-- A concrete key and singleton snapshot for the C5 witness. -/
def exKeyA : GVKNObjKey := { gvk := "v1/ConfigMap", ns := "ns", name := "a" }

/-- See `exKeyA`. -/
def exSnapA : Snapshot := [(exKeyA, KObject.pod { content := "x" })]

/-- Witness for C5 at a concrete pair of snapshots. -/
theorem diff_partitions_by_set_algebra_witness :
    exKeyA ∈ keySetOf exSnapA ∪ keySetOf [] ∧
      ((exKeyA ∈ createSet exSnapA [] ∧ exKeyA ∉ updateSet exSnapA [] ∧
          exKeyA ∉ deleteSet exSnapA []) ∨
        (exKeyA ∉ createSet exSnapA [] ∧ exKeyA ∈ updateSet exSnapA [] ∧
          exKeyA ∉ deleteSet exSnapA []) ∨
        (exKeyA ∉ createSet exSnapA [] ∧ exKeyA ∉ updateSet exSnapA [] ∧
          exKeyA ∈ deleteSet exSnapA [])) :=
  ⟨by decide, (diff_partitions_by_set_algebra exSnapA []).2.2.2 exKeyA (by decide)⟩

/-- **C7**: with the compatibility mode enabled, a delete-set member whose
observed object is a ConfigMap is never issued as a delete call, while a
delete-set member of any other kind still is. -/
theorem compat_mode_excludes_configmaps (oldSnapshot newSnapshot : Snapshot)
    (k : GVKNObjKey) (hk : k ∈ deleteSet oldSnapshot newSnapshot) :
    (isConfigMapAt oldSnapshot k = true →
      k ∉ effectiveDeleteSet true oldSnapshot newSnapshot) ∧
    (isConfigMapAt oldSnapshot k = false →
      k ∈ effectiveDeleteSet true oldSnapshot newSnapshot) := by
  constructor
  · intro hcm hmem
    have := (Finset.mem_filter.mp hmem).2
    simp [hcm] at this
  · intro hcm
    exact Finset.mem_filter.mpr ⟨hk, by simp [hcm]⟩

/-- A ConfigMap-valued snapshot entry for the C7 witness. -/
def exKeyCm : GVKNObjKey := { gvk := "v1/ConfigMap", ns := "ns", name := "cm" }

/-- A Service-valued snapshot entry for the C7 witness. -/
def exKeySvc : GVKNObjKey := { gvk := "v1/Service", ns := "ns", name := "svc" }

/-- An observed snapshot holding one ConfigMap and one Service, both absent
from the desired set, for the C7 witness. -/
def exSnapCmSvc : Snapshot :=
  [(exKeyCm,
    KObject.cm ⟨[], [], [], [], "m"⟩),
   (exKeySvc,
    KObject.svc ⟨[], [], "s", "m"⟩)]

/-- Witness for C7: the orphaned ConfigMap is excluded from the effective
delete set, the orphaned Service is kept in it. -/
theorem compat_mode_excludes_configmaps_witness :
    (exKeyCm ∈ deleteSet exSnapCmSvc [] ∧
      exKeyCm ∉ effectiveDeleteSet true exSnapCmSvc []) ∧
    (exKeySvc ∈ deleteSet exSnapCmSvc [] ∧
      exKeySvc ∈ effectiveDeleteSet true exSnapCmSvc []) :=
  ⟨⟨by decide,
    (compat_mode_excludes_configmaps exSnapCmSvc [] exKeyCm (by decide)).1
      (by decide)⟩,
   ⟨by decide,
    (compat_mode_excludes_configmaps exSnapCmSvc [] exKeySvc (by decide)).2
      (by decide)⟩⟩

/-! ## Claims C6 and C10: object merge -/

/-- An observed StatefulSet with no object-level annotations, for the C6
counterexample. -/
def exOldSts : StsObj :=
  ⟨[("l", "old")], [], [], "tplOld", 1, "strategyOld", "specOld", "metaOld"⟩

/-- A desired StatefulSet carrying the object-level annotation `a ↦ 1`, for
the C6 counterexample. -/
def exNewSts : StsObj :=
  ⟨[("l", "new")], [("a", "1")], [], "tplNew", 2, "strategyNew", "specNew", "metaNew"⟩

/-- **C6 counterexample**: the claim says every metadata map
(labels *and* annotations) of a merged object is merged key-wise preferring
the new value; but for StatefulSets the object-level annotations keep the
old object's map wholesale, so the new-only annotation `a ↦ 1` is absent
from the merged result where key-wise merging would retain it. -/
theorem sts_annotations_not_merged_counterexample :
    copyAndMerge (KObject.sts exOldSts) (KObject.sts exNewSts) =
      some (KObject.sts (copyAndMergeSts exOldSts exNewSts)) ∧
    lookupMap (copyAndMergeSts exOldSts exNewSts).annotations "a" = none ∧
    preferNew (lookupMap exNewSts.annotations "a")
      (lookupMap exOldSts.annotations "a") = some "1" := by
  refine ⟨rfl, rfl, rfl⟩

/-- **C6 (amended)**: `copyAndMerge` returns no object when the two inputs
differ in concrete kind; for the three handled kinds the generator-owned
structural fields (pod template, replicas, update strategy, service spec,
config data) are fully replaced from the new object and fields outside the
generator's ownership keep the old object's values; and the metadata maps
that *are* merged — StatefulSet labels and pod-template annotations, and
Service annotations — are merged key-wise preferring the new value while
preserving any old key absent from the new map.  The remaining metadata maps
(StatefulSet object annotations, Service labels, ConfigMap labels and
annotations) keep the old object's values wholesale. -/
theorem copyAndMerge_field_scoped_merge :
    (∀ oldObj newObj : KObject, kindOf oldObj ≠ kindOf newObj →
      copyAndMerge oldObj newObj = none) ∧
    (∀ o n : StsObj,
      copyAndMerge (KObject.sts o) (KObject.sts n) =
        some (KObject.sts (copyAndMergeSts o n)) ∧
      (∀ k, lookupMap (copyAndMergeSts o n).labels k =
        preferNew (lookupMap n.labels k) (lookupMap o.labels k)) ∧
      (∀ k, lookupMap (copyAndMergeSts o n).templateAnnotations k =
        preferNew (lookupMap n.templateAnnotations k)
          (lookupMap o.templateAnnotations k)) ∧
      (copyAndMergeSts o n).annotations = o.annotations ∧
      (copyAndMergeSts o n).templateRest = n.templateRest ∧
      (copyAndMergeSts o n).replicas = n.replicas ∧
      (copyAndMergeSts o n).updateStrategy = n.updateStrategy ∧
      (copyAndMergeSts o n).specRest = o.specRest ∧
      (copyAndMergeSts o n).metaRest = o.metaRest) ∧
    (∀ o n : SvcObj,
      copyAndMerge (KObject.svc o) (KObject.svc n) =
        some (KObject.svc (copyAndMergeSvc o n)) ∧
      (∀ k, lookupMap (copyAndMergeSvc o n).annotations k =
        preferNew (lookupMap n.annotations k) (lookupMap o.annotations k)) ∧
      (copyAndMergeSvc o n).labels = o.labels ∧
      (copyAndMergeSvc o n).spec = n.spec ∧
      (copyAndMergeSvc o n).metaRest = o.metaRest) ∧
    (∀ o n : CmObj,
      copyAndMerge (KObject.cm o) (KObject.cm n) =
        some (KObject.cm (copyAndMergeCm o n)) ∧
      (copyAndMergeCm o n).data = n.data ∧
      (copyAndMergeCm o n).binaryData = n.binaryData ∧
      (copyAndMergeCm o n).labels = o.labels ∧
      (copyAndMergeCm o n).annotations = o.annotations ∧
      (copyAndMergeCm o n).metaRest = o.metaRest) := by
  refine ⟨?_, ?_, ?_, ?_⟩
  · intro oldObj newObj h
    simp [copyAndMerge, h]
  · intro o n
    refine ⟨by simp [copyAndMerge, kindOf], ?_, ?_, rfl, rfl, rfl, rfl, rfl, rfl⟩
    · intro k; exact lookupMap_mergeMetadataMap o.labels n.labels k
    · intro k
      exact lookupMap_mergeMetadataMap o.templateAnnotations n.templateAnnotations k
  · intro o n
    refine ⟨by simp [copyAndMerge, kindOf], ?_, rfl, rfl, rfl⟩
    intro k; exact lookupMap_mergeMetadataMap o.annotations n.annotations k
  · intro o n
    exact ⟨by simp [copyAndMerge, kindOf], rfl, rfl, rfl, rfl, rfl⟩

/-- Witness for the amended C6: the kind-mismatch branch at a concrete
StatefulSet/ConfigMap pair. -/
theorem copyAndMerge_field_scoped_merge_witness :
    kindOf (KObject.sts exOldSts) ≠
      kindOf (KObject.cm ⟨[], [], [], [], "m"⟩) ∧
    copyAndMerge (KObject.sts exOldSts) (KObject.cm ⟨[], [], [], [], "m"⟩) =
      none :=
  ⟨by decide,
   copyAndMerge_field_scoped_merge.1 (KObject.sts exOldSts)
     (KObject.cm ⟨[], [], [], [], "m"⟩) (by decide)⟩

/-- **C10**: for same-typed objects of a kind without a dedicated merge
branch (the debug Pod), `copyAndMerge` returns the new object itself,
carrying over nothing from the old one; and for the three handled kinds the
merge produces an object (built from a deep copy of the old one — the model
is pure, mirroring the `DeepCopyObject` the Go code mutates instead of the
caller's old object). -/
theorem copyAndMerge_default_returns_new :
    (∀ p n : PodObj,
      copyAndMerge (KObject.pod p) (KObject.pod n) = some (KObject.pod n)) ∧
    (∀ o n : StsObj,
      copyAndMerge (KObject.sts o) (KObject.sts n) =
        some (KObject.sts (copyAndMergeSts o n)) ∧
      (copyAndMergeSts o n).annotations = o.annotations ∧
      (copyAndMergeSts o n).specRest = o.specRest ∧
      (copyAndMergeSts o n).metaRest = o.metaRest) ∧
    (∀ o n : SvcObj,
      copyAndMerge (KObject.svc o) (KObject.svc n) =
        some (KObject.svc (copyAndMergeSvc o n))) ∧
    (∀ o n : CmObj,
      copyAndMerge (KObject.cm o) (KObject.cm n) =
        some (KObject.cm (copyAndMergeCm o n))) := by
  refine ⟨?_, ?_, ?_, ?_⟩
  · intro p n; simp [copyAndMerge, kindOf]
  · intro o n; exact ⟨by simp [copyAndMerge, kindOf], rfl, rfl, rfl⟩
  · intro o n; simp [copyAndMerge, kindOf]
  · intro o n; simp [copyAndMerge, kindOf]

/-! ## Claim C1: replica conservation in the Action step -/

/-- Equality of `Except` results is decidable when both components are. -/
instance {e a : Type} [DecidableEq e] [DecidableEq a] :
    DecidableEq (Except e a) := fun x y =>
  match x, y with
  | .ok u, .ok v =>
    if h : u = v then .isTrue (by rw [h]) else .isFalse (by simp [h])
  | .ok _, .error _ => .isFalse (by simp)
  | .error _, .ok _ => .isFalse (by simp)
  | .error u, .error v =>
    if h : u = v then .isTrue (by rw [h]) else .isFalse (by simp [h])

/-- Whether a result is a fatal (`NewFatalError`) failure. -/
def isFatalError {α : Type} : Except OpsError α → Bool
  | Except.error (OpsError.fatal _) => true
  | _ => false

/-- **C1**: a request whose expected per-template replica counts sum beyond
the expected component replicas is rejected by the Action step with a fatal,
non-retryable error — no clamped spec is written — and every spec the Action
step does write satisfies `sum(instanceTemplate.replicas) ≤ replicas`. -/
theorem action_replica_conservation (clusterName : String)
    (policyAnn : Option String) (compSpec : ClusterComponentSpec)
    (lastCfg : LastComponentConfiguration) (hs : HorizontalScaling) :
    (∀ outSpec,
      actionUpdateComponent clusterName policyAnn compSpec lastCfg hs =
        Except.ok outSpec →
      sumTplReplicas outSpec.instances ≤ outSpec.replicas) ∧
    (sumTplReplicas
        (getExpectedCompValues clusterName compSpec lastCfg hs).instances >
        (getExpectedCompValues clusterName compSpec lastCfg hs).replicas →
      isFatalError
        (actionUpdateComponent clusterName policyAnn compSpec lastCfg hs) =
        true) := by
  constructor
  · intro outSpec h
    unfold actionUpdateComponent at h
    cases hv : validateHorizontalScalingWithPolicy clusterName
        policyAnn lastCfg hs with
    | error e => rw [hv] at h; exact absurd h (by simp)
    | ok u =>
      rw [hv] at h
      by_cases hgt : sumTplReplicas
          (getExpectedCompValues clusterName compSpec lastCfg hs).instances >
          (getExpectedCompValues clusterName compSpec lastCfg hs).replicas
      · rw [if_pos hgt] at h; exact absurd h (by simp)
      · rw [if_neg hgt] at h
        have hout := Except.ok.inj h
        rw [← hout]
        exact le_of_not_lt hgt
  · intro hgt
    unfold actionUpdateComponent
    cases hv : validateHorizontalScalingWithPolicy clusterName
        policyAnn lastCfg hs with
    | error e => cases e; rfl
    | ok u => rw [if_pos hgt]; rfl

/-- A one-replica component with no templates, for witnesses. -/
def exCompSpec1 : ClusterComponentSpec := ⟨1, [], [], "rest"⟩

/-- The last configuration recorded from `exCompSpec1`. -/
def exLastCfg1 : LastComponentConfiguration := ⟨1, [], []⟩

/-- A delta intent whose new template brings five replicas while the
aggregate `replicaChanges` is pinned to zero: the expected templates sum to
five against one expected replica. -/
def exHsOverfull : HorizontalScaling :=
  ⟨"comp", none, none, some ⟨some 0, [], [⟨"big", some 5⟩], []⟩⟩

/-- Witness for C1: the over-provisioned intent is rejected fatally. -/
theorem action_replica_conservation_witness :
    sumTplReplicas
        (getExpectedCompValues "c" exCompSpec1 exLastCfg1 exHsOverfull).instances >
      (getExpectedCompValues "c" exCompSpec1 exLastCfg1 exHsOverfull).replicas ∧
    isFatalError
        (actionUpdateComponent "c" none exCompSpec1 exLastCfg1 exHsOverfull) =
      true :=
  ⟨by decide,
   (action_replica_conservation "c" none exCompSpec1 exLastCfg1 exHsOverfull).2
     (by decide)⟩

/-! ## Claim C2: cancellation restores the recorded configuration -/

/-- **C2**: when the last configuration was recorded from `C` and the Action
step then mutated the spec to `Cp`, the cancellation callback restores
exactly `C`, field for field; and in the `Cancelling` phase the computed
create/delete pod sets are exactly the non-cancelling sets swapped. -/
theorem cancel_restores_last_configuration (clusterName : String)
    (policyAnn : Option String) (C Cp : ClusterComponentSpec)
    (hs : HorizontalScaling)
    (hact : actionUpdateComponent clusterName policyAnn C
      (getLastComponentInfo C) hs = Except.ok Cp) :
    cancelRevertComponent (getLastComponentInfo C) Cp = C ∧
    (∀ (phase : OpsPhase) (lastCfg : LastComponentConfiguration)
        (currCompSpec : ClusterComponentSpec) (hs2 : HorizontalScaling)
        (fullCompName : String), phase ≠ OpsPhase.cancelling →
      getCreateAndDeletePodSet clusterName OpsPhase.cancelling lastCfg
          currCompSpec hs2 fullCompName =
        Prod.swap (getCreateAndDeletePodSet clusterName phase lastCfg
          currCompSpec hs2 fullCompName)) := by
  constructor
  · unfold actionUpdateComponent at hact
    cases hv : validateHorizontalScalingWithPolicy clusterName
        policyAnn (getLastComponentInfo C) hs with
    | error e => rw [hv] at hact; exact absurd hact (by simp)
    | ok u =>
      rw [hv] at hact
      by_cases hgt : sumTplReplicas
          (getExpectedCompValues clusterName C (getLastComponentInfo C) hs).instances >
          (getExpectedCompValues clusterName C (getLastComponentInfo C) hs).replicas
      · rw [if_pos hgt] at hact; exact absurd hact (by simp)
      · rw [if_neg hgt] at hact
        have hout := Except.ok.inj hact
        rw [← hout]
        cases C
        rfl
  · intro phase lastCfg currCompSpec hs2 fullCompName hphase
    simp [getCreateAndDeletePodSet, hphase, Prod.swap]

/-- A two-replica component, for the C2 witness. -/
def exC2 : ClusterComponentSpec := ⟨2, [], [], "o"⟩

/-- A plain scale-out of one replica, for the C2 witness. -/
def exHsPlusOne : HorizontalScaling :=
  ⟨"comp", none, none, some ⟨some 1, [], [], []⟩⟩

/-- Witness for C2: the action scales `exC2` out to three replicas, the
cancel callback restores the recorded two-replica spec exactly, and the
Cancelling-phase pod sets are the Running-phase sets swapped. -/
theorem cancel_restores_last_configuration_witness :
    cancelRevertComponent (getLastComponentInfo exC2) ⟨3, [], [], "o"⟩ = exC2 ∧
    getCreateAndDeletePodSet "c" OpsPhase.cancelling (getLastComponentInfo exC2)
        exC2 exHsPlusOne "comp" =
      Prod.swap (getCreateAndDeletePodSet "c" OpsPhase.running
        (getLastComponentInfo exC2) exC2 exHsPlusOne "comp") :=
  have h := cancel_restores_last_configuration "c" none exC2 ⟨3, [], [], "o"⟩
    exHsPlusOne (by decide)
  ⟨h.1, h.2 OpsPhase.running (getLastComponentInfo exC2) exC2 exHsPlusOne
    "comp" (by decide)⟩

/-! ## Claim C4: absolute vs. delta baselines -/

/-- **C4**: with an absolute `replicas` (and, per the data model, no
scale-in/scale-out blocks) the expected topology is that replica count over
the *current* spec's templates and offline set; without it the computation
reads its baselines from the last configuration only — the live spec is
irrelevant — and the expected replica count is the baseline plus the
scale-out aggregate minus the scale-in aggregate (shown here for explicitly
supplied aggregates, which the auto-sync step preserves verbatim). -/
theorem getExpectedCompValues_modes (clusterName : String)
    (compSpec compSpec2 : ClusterComponentSpec)
    (lastCfg : LastComponentConfiguration) (hs : HorizontalScaling) :
    (∀ r, hs.replicas = some r → hs.scaleIn = none → hs.scaleOut = none →
      getExpectedCompValues clusterName compSpec lastCfg hs =
        ⟨r, compSpec.instances, compSpec.offlineInstances⟩) ∧
    (hs.replicas = none →
      getExpectedCompValues clusterName compSpec lastCfg hs =
        getExpectedCompValues clusterName compSpec2 lastCfg hs) ∧
    (∀ si so ic oc, hs.replicas = none → hs.scaleIn = some si →
      si.replicaChanges = some ic → hs.scaleOut = some so →
      so.replicaChanges = some oc →
      (getExpectedCompValues clusterName compSpec lastCfg hs).replicas =
        lastCfg.replicas + oc - ic) := by
  obtain ⟨nm, rep, hsi, hso⟩ := hs
  refine ⟨?_, ?_, ?_⟩
  · intro r h0 h1 h2
    simp only at h0 h1 h2
    subst h0 h1 h2
    simp [getExpectedCompValues, filterHorizontalScalingSpec, filterScaleIn,
      filterScaleOut, autoSyncReplicaChanges, syncScaleIn, syncScaleOut,
      getCompExpectReplicas, getCompExpectedInstances,
      getCompExpectedOfflineInstances]
  · intro h0
    simp only at h0
    subst h0
    rfl
  · intro si so ic oc h0 h1 h2 h3 h4
    simp only at h0 h1 h3
    subst h0 h1 h3
    obtain ⟨sic, sii, sil⟩ := si
    obtain ⟨soc, soi, son, sol⟩ := so
    simp only at h2 h4
    subst h2 h4
    simp only [getExpectedCompValues, filterHorizontalScalingSpec,
      filterScaleIn, filterScaleOut, autoSyncReplicaChanges, syncScaleIn,
      syncScaleOut, getSyncedInstancesAndReplicaChanges,
      getCompExpectReplicas]
    split_ifs <;> rfl

/-- An absolute-mode intent pinning five replicas, for the C4 witness. -/
def exHsAbsolute : HorizontalScaling := ⟨"comp", some 5, none, none⟩

/-- A delta-mode intent with explicit aggregates `+2` out and `-1` in, for
the C4 witness. -/
def exHsDelta : HorizontalScaling :=
  ⟨"comp", none, some ⟨some 1, [], []⟩, some ⟨some 2, [], [], []⟩⟩

/-- A four-replica last configuration, for the C4 witness. -/
def exLastCfg4 : LastComponentConfiguration := ⟨4, [], []⟩

/-- Witness for C4: absolute mode passes the current spec through at five
replicas; delta mode computes `4 + 2 - 1` from the last configuration and
ignores the live spec entirely. -/
theorem getExpectedCompValues_modes_witness :
    getExpectedCompValues "c" exCompSpec1 exLastCfg4 exHsAbsolute =
      ⟨5, exCompSpec1.instances, exCompSpec1.offlineInstances⟩ ∧
    getExpectedCompValues "c" exCompSpec1 exLastCfg4 exHsDelta =
      getExpectedCompValues "c" exC2 exLastCfg4 exHsDelta ∧
    (getExpectedCompValues "c" exCompSpec1 exLastCfg4 exHsDelta).replicas =
      exLastCfg4.replicas + 2 - 1 :=
  have h := getExpectedCompValues_modes "c" exCompSpec1 exC2 exLastCfg4
  ⟨(h exHsAbsolute).1 5 rfl rfl rfl,
   (h exHsDelta).2.1 rfl,
   (h exHsDelta).2.2 ⟨some 1, [], []⟩ ⟨some 2, [], [], []⟩ 1 2 rfl rfl rfl rfl rfl⟩

/-! ## Claim C8: create/delete pod-set exclusivity -/

/-- No generated instance name is in the offline list it was generated
against (per-template version). -/
theorem mem_generateInstanceNames_not_offline (parent tpl : String)
    (count : Nat) (offline : List String) (n : String)
    (h : n ∈ generateInstanceNames parent tpl count offline) : n ∉ offline := by
  unfold generateInstanceNames at h
  have h2 := List.mem_of_mem_take h
  have h3 := (List.mem_filter.mp h2).2
  simp at h3
  exact h3

/-- No generated instance name is in the offline list it was generated
against. -/
theorem mem_GenerateAllPodNamesToSet_not_offline (replicas : Int)
    (tpls : List InstanceTemplate) (offline : List String)
    (clusterName compName n : String)
    (h : n ∈ GenerateAllPodNamesToSet replicas tpls offline clusterName compName) :
    n ∉ offline := by
  unfold GenerateAllPodNamesToSet generateAllInstanceNames at h
  rcases List.mem_append.mp h with h1 | h1
  · obtain ⟨t, _, hmem⟩ := List.mem_flatMap.mp h1
    exact mem_generateInstanceNames_not_offline _ _ _ _ _ hmem
  · split at h1
    · exact mem_generateInstanceNames_not_offline _ _ _ _ _ h1
    · simp at h1

/-- Set-algebra core of the pod-set exclusivity: the symmetric differences
are disjoint, the force-added delete names live in the baseline set and the
force-added create names live outside it. -/
theorem create_delete_disjoint_core (last curr inS outS : Finset String)
    (hin : inS ⊆ last) (hout : ∀ x ∈ outS, x ∉ last) :
    Disjoint (curr \ last ∪ outS) (last \ curr ∪ inS) := by
  rw [Finset.disjoint_left]
  intro y h1 h2
  rcases Finset.mem_union.mp h1 with hy | hy
  · have hnl := (Finset.mem_sdiff.mp hy).2
    rcases Finset.mem_union.mp h2 with hz | hz
    · exact hnl (Finset.mem_sdiff.mp hz).1
    · exact hnl (hin hz)
  · have hnl := hout y hy
    rcases Finset.mem_union.mp h2 with hz | hz
    · exact hnl (Finset.mem_sdiff.mp hz).1
    · exact hnl (hin hz)

/-- The raw `scaleIn.onlineInstancesToOffline` list of an intent. -/
def scaleInNamesOf (hs : HorizontalScaling) : List String :=
  match hs.scaleIn with
  | some si => si.onlineInstancesToOffline
  | none => []

/-- The raw `scaleOut.offlineInstancesToOnline` list of an intent. -/
def scaleOutNamesOf (hs : HorizontalScaling) : List String :=
  match hs.scaleOut with
  | some so => so.offlineInstancesToOnline
  | none => []

/-- The pod-name set of the last configuration (`lastPodSet`). -/
def lastPodFinset (clusterName fullCompName : String)
    (lastCfg : LastComponentConfiguration) : Finset String :=
  (GenerateAllPodNamesToSet lastCfg.replicas lastCfg.instances
    lastCfg.offlineInstances clusterName fullCompName).toFinset

/-- The pod-name set of the expected topology (`currPodSet`). -/
def expectedPodFinset (clusterName fullCompName : String)
    (currCompSpec : ClusterComponentSpec)
    (lastCfg : LastComponentConfiguration) (hs : HorizontalScaling) :
    Finset String :=
  (GenerateAllPodNamesToSet
    (getExpectedCompValues clusterName currCompSpec lastCfg hs).replicas
    (getExpectedCompValues clusterName currCompSpec lastCfg hs).instances
    (getExpectedCompValues clusterName currCompSpec lastCfg hs).offlineInstances
    clusterName fullCompName).toFinset

/-- `getCreateAndDeletePodSet`, written out as set algebra: symmetric
differences of the two pod sets, the raw scale-out names force-added to the
create side and the raw scale-in names to the delete side, swapped in the
Cancelling phase. -/
theorem getCreateAndDeletePodSet_spec (clusterName : String)
    (phase : OpsPhase) (lastCfg : LastComponentConfiguration)
    (currCompSpec : ClusterComponentSpec) (hs : HorizontalScaling)
    (fullCompName : String) :
    getCreateAndDeletePodSet clusterName phase lastCfg currCompSpec hs
        fullCompName =
      (if phase = OpsPhase.cancelling then
        (lastPodFinset clusterName fullCompName lastCfg \
            expectedPodFinset clusterName fullCompName currCompSpec lastCfg hs ∪
          (scaleInNamesOf hs).toFinset,
         expectedPodFinset clusterName fullCompName currCompSpec lastCfg hs \
            lastPodFinset clusterName fullCompName lastCfg ∪
          (scaleOutNamesOf hs).toFinset)
      else
        (expectedPodFinset clusterName fullCompName currCompSpec lastCfg hs \
            lastPodFinset clusterName fullCompName lastCfg ∪
          (scaleOutNamesOf hs).toFinset,
         lastPodFinset clusterName fullCompName lastCfg \
            expectedPodFinset clusterName fullCompName currCompSpec lastCfg hs ∪
          (scaleInNamesOf hs).toFinset)) := by
  obtain ⟨nm, rep, osi, oso⟩ := hs
  cases osi <;> cases oso <;>
    simp [getCreateAndDeletePodSet, scaleInNamesOf, scaleOutNamesOf,
      lastPodFinset, expectedPodFinset]

/-- An intent listing the same name both to go offline and to come online:
the name lands in both computed pod sets, refuting unconditional
exclusivity. -/
def exHsBothLists : HorizontalScaling :=
  ⟨"comp", none, some ⟨some 0, [], ["c-comp-9"]⟩,
    some ⟨some 0, [], [], ["c-comp-9"]⟩⟩

/-- **C8 counterexample**: `getCreateAndDeletePodSet` adds the raw scale-in
and scale-out name lists to the delete and create sets unconditionally, so
an instance named in both lists is a member of both returned maps — the sets
are not disjoint for every input. -/
theorem podset_overlap_counterexample :
    "c-comp-9" ∈ (getCreateAndDeletePodSet "c" OpsPhase.running exLastCfg1
      exCompSpec1 exHsBothLists "comp").1 ∧
    "c-comp-9" ∈ (getCreateAndDeletePodSet "c" OpsPhase.running exLastCfg1
      exCompSpec1 exHsBothLists "comp").2 := by decide

/-- **C8 (amended)**: the created and deleted pod sets of one operation are
disjoint provided every raw scale-in name belongs to the last
configuration's pod set and every raw scale-out name belongs to the last
configuration's offline set — exactly what strict validation guarantees;
without that precondition a name listed in both raw lists appears in both
sets. -/
theorem podset_disjoint_of_validated_lists (clusterName fullCompName : String)
    (phase : OpsPhase) (lastCfg : LastComponentConfiguration)
    (currCompSpec : ClusterComponentSpec) (hs : HorizontalScaling)
    (hin : ∀ x ∈ scaleInNamesOf hs,
      x ∈ GenerateAllPodNamesToSet lastCfg.replicas lastCfg.instances
        lastCfg.offlineInstances clusterName fullCompName)
    (hout : ∀ x ∈ scaleOutNamesOf hs, x ∈ lastCfg.offlineInstances) :
    Disjoint
      (getCreateAndDeletePodSet clusterName phase lastCfg currCompSpec hs
        fullCompName).1
      (getCreateAndDeletePodSet clusterName phase lastCfg currCompSpec hs
        fullCompName).2 := by
  have hofffree : ∀ x ∈ (scaleOutNamesOf hs).toFinset,
      x ∉ lastPodFinset clusterName fullCompName lastCfg := by
    intro x hx hmem
    exact mem_GenerateAllPodNamesToSet_not_offline _ _ _ _ _ _
      (List.mem_toFinset.mp hmem) (hout x (List.mem_toFinset.mp hx))
  have hinsub : (scaleInNamesOf hs).toFinset ⊆
      lastPodFinset clusterName fullCompName lastCfg := by
    intro x hx
    exact List.mem_toFinset.mpr (hin x (List.mem_toFinset.mp hx))
  rw [getCreateAndDeletePodSet_spec]
  split_ifs
  · exact (create_delete_disjoint_core _ _ _ _ hinsub hofffree).symm
  · exact create_delete_disjoint_core _ _ _ _ hinsub hofffree

/-- A strict-conform scale-in of the existing instance `c-comp-1`, for the
C8 witness. -/
def exHsScaleInOne : HorizontalScaling :=
  ⟨"comp", none, some ⟨none, [], ["c-comp-1"]⟩, none⟩

/-- Witness for the amended C8 at a concrete validated scale-in. -/
theorem podset_disjoint_of_validated_lists_witness :
    (∀ x ∈ scaleInNamesOf exHsScaleInOne,
      x ∈ GenerateAllPodNamesToSet (2 : Int) [] [] "c" "comp") ∧
    (∀ x ∈ scaleOutNamesOf exHsScaleInOne, x ∈ ([] : List String)) ∧
    Disjoint
      (getCreateAndDeletePodSet "c" OpsPhase.running ⟨2, [], []⟩ exC2
        exHsScaleInOne "comp").1
      (getCreateAndDeletePodSet "c" OpsPhase.running ⟨2, [], []⟩ exC2
        exHsScaleInOne "comp").2 :=
  ⟨by decide, by decide,
   podset_disjoint_of_validated_lists "c" "comp" OpsPhase.running ⟨2, [], []⟩
     exC2 exHsScaleInOne (by decide) (by decide)⟩

/-! ## Claim C3: conflicts with earlier operations -/

/-- An earlier, running scale-out of one replica, for C3. -/
def exEarlierHs : HorizontalScaling :=
  ⟨"comp", none, none, some ⟨some 1, [], [], []⟩⟩

/-- A newer scale-in naming `c-comp-1`, the instance the earlier scale-out
created, for C3. -/
def exCurrHs : HorizontalScaling :=
  ⟨"comp", none, some ⟨none, [], ["c-comp-1"]⟩, none⟩

/-- The conflict-check context for C3: the earlier request scaled the
component from one to two replicas and is still running. -/
def exCtxConflict : ConflictCheckCtx :=
  { clusterName := "c"
    compSpec := ⟨2, [], [], "o"⟩
    currentPhase := OpsPhase.creating
    currentLastCfg := ⟨2, [], []⟩
    earlierPhase := OpsPhase.running
    earlierLastCfg := ⟨1, [], []⟩ }

/-- **C3 counterexample**: when the newer operation would take offline an
instance created by the earlier running operation, the decision callback
does *not* abort the earlier operation — it returns a fatal error, failing
the newer operation's action.  The claimed "earlier is aborted, newer takes
precedence" behaviour only holds for the absolute-replica-count conflict. -/
theorem conflict_rejects_newer_counterexample :
    abortEarlierOpsDecision exCtxConflict [exCurrHs] "earlier-ops"
        OpsType.horizontalScaling [exEarlierHs] =
      Except.error (OpsError.fatal
        "instance cannot be taken offline as it has been created by another running opsRequest \"earlier-ops\"") ∧
    abortEarlierOpsDecision exCtxConflict [exCurrHs] "earlier-ops"
        OpsType.horizontalScaling [exEarlierHs] ≠ Except.ok true :=
  ⟨by decide, by decide⟩

/-- **C3 (amended)**: for an earlier pending-or-running operation of the
same kind sharing a component, an absolute replica count on either side
makes the decision abort the earlier operation (`ok true`); the
created-instance intersection check (recomputing the earlier operation's
expected topology and intersecting its created set with the newer
operation's delete set, both via `getCreatedOrDeletedPodSet`) instead fails
the NEW operation with a fatal error when the intersection is non-empty —
the earlier operation is not aborted in that case. -/
theorem conflict_decision_characterization (ctx : ConflictCheckCtx)
    (currentCompOps : List HorizontalScaling) (earlierOpsName : String)
    (v : HorizontalScaling) (rest : List HorizontalScaling)
    (currHS : HorizontalScaling)
    (hfind : currentCompOps.find? (fun c => c.componentName = v.componentName) =
      some currHS) :
    (abortEarlierOpsDecision ctx currentCompOps earlierOpsName
        OpsType.horizontalScaling (v :: rest) =
      abortEarlierOpsGo ctx currentCompOps earlierOpsName (v :: rest)) ∧
    (currHS.replicas ≠ none ∨ v.replicas ≠ none →
      abortEarlierOpsGo ctx currentCompOps earlierOpsName (v :: rest) =
        Except.ok true) ∧
    (∀ e, currHS.replicas = none → v.replicas = none →
      ctx.earlierPhase ≠ OpsPhase.pending →
      checkIntersectionWithEarlierOps ctx earlierOpsName currHS v =
        Except.error e →
      abortEarlierOpsGo ctx currentCompOps earlierOpsName (v :: rest) =
        Except.error e) ∧
    (checkIntersectionWithEarlierOps ctx earlierOpsName currHS v =
        Except.ok () ↔
      (getCreatedOrDeletedPodSet ctx ctx.currentLastCfg currHS
          v.componentName).2 ∩
        (getCreatedOrDeletedPodSet ctx ctx.earlierLastCfg v
          v.componentName).1 = ∅) := by
  refine ⟨?_, ?_, ?_, ?_⟩
  · simp [abortEarlierOpsDecision]
  · intro habs
    simp only [abortEarlierOpsGo, hfind]
    rw [if_pos habs]
  · intro e h1 h2 h3 hcheck
    simp only [abortEarlierOpsGo, hfind]
    rw [if_neg (by simp [h1, h2]), if_neg h3, hcheck]
  · unfold checkIntersectionWithEarlierOps
    constructor
    · intro h
      by_cases hne : ((getCreatedOrDeletedPodSet ctx ctx.currentLastCfg currHS
          v.componentName).2 ∩
        (getCreatedOrDeletedPodSet ctx ctx.earlierLastCfg v
          v.componentName).1).Nonempty
      · rw [if_pos hne] at h; exact absurd h (by simp)
      · exact Finset.not_nonempty_iff_eq_empty.mp hne
    · intro h
      rw [if_neg (by rw [h]; simp)]

/-- Witness for the amended C3: the concrete conflicting pair takes the
fatal-error path of the intersection branch. -/
theorem conflict_decision_characterization_witness :
    checkIntersectionWithEarlierOps exCtxConflict "earlier-ops" exCurrHs
        exEarlierHs =
      Except.error (OpsError.fatal
        "instance cannot be taken offline as it has been created by another running opsRequest \"earlier-ops\"") ∧
    abortEarlierOpsGo exCtxConflict [exCurrHs] "earlier-ops" [exEarlierHs] =
      Except.error (OpsError.fatal
        "instance cannot be taken offline as it has been created by another running opsRequest \"earlier-ops\"") :=
  ⟨by decide,
   (conflict_decision_characterization exCtxConflict [exCurrHs] "earlier-ops"
      exEarlierHs [] exCurrHs (by decide)).2.2.1
     (OpsError.fatal
       "instance cannot be taken offline as it has been created by another running opsRequest \"earlier-ops\"")
     rfl rfl (by decide) (by decide)⟩

/-! ## Claim C9: validation policies -/

/-- The classification loop of
`collectOnlineAndOfflineAndNotExistInstances`, characterized: starting from
any accumulator it adds the offline-members, pod-set-members and
non-existent names of the list to the three components. -/
theorem collect_loop_eq (offlineInstances : Finset String)
    (currPodSet : List String) (l : List String)
    (acc : Finset String × Finset String × Finset String) :
    l.foldl
      (fun acc insName =>
        if insName ∈ offlineInstances then
          (acc.1, insert insName acc.2.1, acc.2.2)
        else if currPodSet.contains insName then
          (insert insName acc.1, acc.2.1, acc.2.2)
        else (acc.1, acc.2.1, insert insName acc.2.2)) acc =
    (acc.1 ∪ (l.filter
        (fun x => !(decide (x ∈ offlineInstances)) && currPodSet.contains x)).toFinset,
     acc.2.1 ∪ (l.filter (fun x => decide (x ∈ offlineInstances))).toFinset,
     acc.2.2 ∪ (l.filter
        (fun x => !(decide (x ∈ offlineInstances)) && !currPodSet.contains x)).toFinset) := by
  induction l generalizing acc with
  | nil => simp
  | cons x rest ih =>
    by_cases h1 : x ∈ offlineInstances
    · simp only [List.foldl_cons, if_pos h1, ih, List.filter_cons]
      simp [h1, Finset.union_insert, Finset.insert_union]
    · by_cases h2 : currPodSet.contains x
      · have h2m : x ∈ currPodSet := by simpa using h2
        simp only [List.foldl_cons, if_neg h1, if_pos h2, ih, List.filter_cons]
        simp [h1, h2m, Finset.union_insert, Finset.insert_union]
      · have h2m : x ∉ currPodSet := by simpa using h2
        simp only [List.foldl_cons, if_neg h1, if_neg h2, ih, List.filter_cons]
        simp [h1, h2m, Finset.union_insert, Finset.insert_union]

/-- `collectOnlineAndOfflineAndNotExistInstances`, characterized as three
list filters. -/
theorem collect_eq (insNames : List String) (offlineInstances : Finset String)
    (currPodSet : List String) :
    collectOnlineAndOfflineAndNotExistInstances insNames offlineInstances
        currPodSet =
      ((insNames.filter
          (fun x => !(decide (x ∈ offlineInstances)) && currPodSet.contains x)).toFinset,
       (insNames.filter (fun x => decide (x ∈ offlineInstances))).toFinset,
       (insNames.filter
          (fun x => !(decide (x ∈ offlineInstances)) && !currPodSet.contains x)).toFinset) := by
  unfold collectOnlineAndOfflineAndNotExistInstances
  rw [collect_loop_eq]
  simp

/-- `collecteAllTypeOfInstancesFromOps`, characterized: the online scale-in
names, the offline scale-out names, and the union of the non-existent names
of both lists. -/
theorem collecte_eq (hs : HorizontalScaling) (currPodSet : List String)
    (offlineInstances : Finset String) :
    collecteAllTypeOfInstancesFromOps hs currPodSet offlineInstances =
      (((scaleInNamesOf hs).filter
          (fun x => !(decide (x ∈ offlineInstances)) && currPodSet.contains x)).toFinset,
       ((scaleOutNamesOf hs).filter
          (fun x => decide (x ∈ offlineInstances))).toFinset,
       ((scaleInNamesOf hs).filter
          (fun x => !(decide (x ∈ offlineInstances)) && !currPodSet.contains x)).toFinset ∪
       ((scaleOutNamesOf hs).filter
          (fun x => !(decide (x ∈ offlineInstances)) && !currPodSet.contains x)).toFinset) := by
  obtain ⟨nm, rep, osi, oso⟩ := hs
  cases osi <;> cases oso <;>
    simp only [collecteAllTypeOfInstancesFromOps, scaleInNamesOf,
      scaleOutNamesOf, collect_eq] <;>
    first
    | (split_ifs <;> simp_all)
    | simp_all

/-- The strict-policy cardinality test decoded: the distinct members of a
list satisfying a predicate number exactly the list's length iff the list
has no duplicates and every member satisfies the predicate. -/
theorem toFinset_filter_card_eq_length_iff (l : List String) (p : String → Bool) :
    ((l.filter p).toFinset.card = l.length) ↔
      (l.Nodup ∧ ∀ x ∈ l, p x = true) := by
  constructor
  · intro h
    have hsub : (l.filter p).Sublist l := List.filter_sublist l
    have h1 : (l.filter p).toFinset.card ≤ (l.filter p).length :=
      List.toFinset_card_le _
    have h2 : (l.filter p).length ≤ l.length := hsub.length_le
    have hflen : (l.filter p).length = l.length := by omega
    have hfeq : l.filter p = l := hsub.eq_of_length hflen
    have hall : ∀ x ∈ l, p x = true := List.filter_eq_self.mp hfeq
    rw [hfeq] at h
    have hd : l.dedup.length = l.length := by rw [← List.card_toFinset]; exact h
    have hde : l.dedup = l := (List.dedup_sublist l).eq_of_length hd
    exact ⟨List.dedup_eq_self.mp hde, hall⟩
  · rintro ⟨hnd, hall⟩
    rw [List.filter_eq_self.mpr hall, List.card_toFinset,
      List.dedup_eq_self.mpr hnd]

/-- `strictPolicyValidation` succeeds exactly when, for each non-empty
name list, the collected set's cardinality matches the list length. -/
theorem strictPolicyValidation_ok_iff (hs : HorizontalScaling)
    (onl offl : Finset String) :
    strictPolicyValidation hs onl offl = Except.ok () ↔
      ((∀ si, hs.scaleIn = some si → si.onlineInstancesToOffline ≠ [] →
          onl.card = si.onlineInstancesToOffline.length) ∧
       (∀ so, hs.scaleOut = some so → so.offlineInstancesToOnline ≠ [] →
          offl.card = so.offlineInstancesToOnline.length)) := by
  obtain ⟨nm, rep, osi, oso⟩ := hs
  cases osi <;> cases oso <;>
    simp only [strictPolicyValidation] <;>
    first
    | (split_ifs <;> simp_all)
    | simp_all

/-- The set of requested instance names that exist neither in the last
configuration's pod set nor in its offline set (the fatal not-exist set of
`validateHorizontalScalingWithPolicy`). -/
def notExistSetOf (clusterName : String)
    (lastCfg : LastComponentConfiguration) (hs : HorizontalScaling) :
    Finset String :=
  (collecteAllTypeOfInstancesFromOps hs
    (GenerateAllPodNamesToSet lastCfg.replicas lastCfg.instances
      lastCfg.offlineInstances clusterName hs.componentName)
    lastCfg.offlineInstances.toFinset).2.2

/-- The strict checks of `validateHorizontalScalingWithPolicy`, decoded:
every scale-in name must be duplicate-free and online (in the pod set, not
offline), every scale-out name duplicate-free and offline. -/
theorem strict_side_iff (clusterName : String)
    (lastCfg : LastComponentConfiguration) (hs : HorizontalScaling) :
    strictPolicyValidation hs
        (collecteAllTypeOfInstancesFromOps hs
          (GenerateAllPodNamesToSet lastCfg.replicas lastCfg.instances
            lastCfg.offlineInstances clusterName hs.componentName)
          lastCfg.offlineInstances.toFinset).1
        (collecteAllTypeOfInstancesFromOps hs
          (GenerateAllPodNamesToSet lastCfg.replicas lastCfg.instances
            lastCfg.offlineInstances clusterName hs.componentName)
          lastCfg.offlineInstances.toFinset).2.1 = Except.ok () ↔
      ((∀ si, hs.scaleIn = some si →
          si.onlineInstancesToOffline.Nodup ∧
          ∀ x ∈ si.onlineInstancesToOffline,
            x ∉ lastCfg.offlineInstances ∧
            x ∈ GenerateAllPodNamesToSet lastCfg.replicas lastCfg.instances
              lastCfg.offlineInstances clusterName hs.componentName) ∧
       (∀ so, hs.scaleOut = some so →
          so.offlineInstancesToOnline.Nodup ∧
          ∀ x ∈ so.offlineInstancesToOnline, x ∈ lastCfg.offlineInstances)) := by
  rw [strictPolicyValidation_ok_iff, collecte_eq]
  apply and_congr
  · constructor
    · intro h si hsi
      have hnames : scaleInNamesOf hs = si.onlineInstancesToOffline := by
        simp [scaleInNamesOf, hsi]
      by_cases hl : si.onlineInstancesToOffline = []
      · rw [hl]; exact ⟨List.nodup_nil, by simp⟩
      · have hcard := h si hsi hl
        rw [hnames] at hcard
        obtain ⟨hnd, hall⟩ := (toFinset_filter_card_eq_length_iff _ _).mp hcard
        refine ⟨hnd, fun x hx => ?_⟩
        have := hall x hx
        simp at this
        exact ⟨this.1, by simpa using this.2⟩
    · intro h si hsi hl
      obtain ⟨hnd, hall⟩ := h si hsi
      have hnames : scaleInNamesOf hs = si.onlineInstancesToOffline := by
        simp [scaleInNamesOf, hsi]
      rw [hnames]
      refine (toFinset_filter_card_eq_length_iff _ _).mpr ⟨hnd, fun x hx => ?_⟩
      have := hall x hx
      simp [this.1, this.2]
  · constructor
    · intro h so hso
      have hnames : scaleOutNamesOf hs = so.offlineInstancesToOnline := by
        simp [scaleOutNamesOf, hso]
      by_cases hl : so.offlineInstancesToOnline = []
      · rw [hl]; exact ⟨List.nodup_nil, by simp⟩
      · have hcard := h so hso hl
        rw [hnames] at hcard
        obtain ⟨hnd, hall⟩ := (toFinset_filter_card_eq_length_iff _ _).mp hcard
        refine ⟨hnd, fun x hx => ?_⟩
        have := hall x hx
        simpa using this
    · intro h so hso hl
      obtain ⟨hnd, hall⟩ := h so hso
      have hnames : scaleOutNamesOf hs = so.offlineInstancesToOnline := by
        simp [scaleOutNamesOf, hso]
      rw [hnames]
      refine (toFinset_filter_card_eq_length_iff _ _).mpr ⟨hnd, fun x hx => ?_⟩
      simpa using hall x hx

/-- **C9**: validation always fails fatally on a non-existent instance name
(both policies); under a non-strict policy annotation that is the *only*
fatal validation error; with no annotation or the strict annotation,
validation additionally requires every scale-in name to be online, every
scale-out name to be offline, and both lists to be duplicate-free — any
violation is a fatal error. -/
theorem validation_policy_characterization (clusterName : String)
    (policyAnn : Option String)
    (lastCfg : LastComponentConfiguration) (hs : HorizontalScaling) :
    (validateHorizontalScalingWithPolicy clusterName policyAnn lastCfg
        hs = Except.ok () →
      notExistSetOf clusterName lastCfg hs = ∅) ∧
    (∀ p, policyAnn = some p → p ≠ HscaleValidatePolicyStrict →
      (validateHorizontalScalingWithPolicy clusterName policyAnn
          lastCfg hs = Except.ok () ↔
        notExistSetOf clusterName lastCfg hs = ∅)) ∧
    ((policyAnn = none ∨
        policyAnn = some HscaleValidatePolicyStrict) →
      (validateHorizontalScalingWithPolicy clusterName policyAnn
          lastCfg hs = Except.ok () ↔
        (notExistSetOf clusterName lastCfg hs = ∅ ∧
          (∀ si, hs.scaleIn = some si →
            si.onlineInstancesToOffline.Nodup ∧
            ∀ x ∈ si.onlineInstancesToOffline,
              x ∉ lastCfg.offlineInstances ∧
              x ∈ GenerateAllPodNamesToSet lastCfg.replicas lastCfg.instances
                lastCfg.offlineInstances clusterName hs.componentName) ∧
          (∀ so, hs.scaleOut = some so →
            so.offlineInstancesToOnline.Nodup ∧
            ∀ x ∈ so.offlineInstancesToOnline,
              x ∈ lastCfg.offlineInstances)))) := by
  by_cases hne : 0 < (notExistSetOf clusterName lastCfg hs).card
  · have hne' := hne
    simp only [notExistSetOf] at hne'
    have hv : validateHorizontalScalingWithPolicy clusterName
        policyAnn lastCfg hs =
        Except.error (.fatal "instances specified in the request is not exist") := by
      simp only [validateHorizontalScalingWithPolicy]
      rw [if_pos hne']
    have hnemp : ¬ notExistSetOf clusterName lastCfg hs = ∅ := by
      intro h
      rw [h] at hne
      simp at hne
    refine ⟨?_, ?_, ?_⟩
    · intro h; rw [hv] at h; exact absurd h (by simp)
    · intro p hp hpne
      rw [hv]
      constructor
      · intro h; exact absurd h (by simp)
      · intro h; exact absurd h hnemp
    · intro hpol
      rw [hv]
      constructor
      · intro h; exact absurd h (by simp)
      · rintro ⟨h, -⟩; exact absurd h hnemp
  · have hne' := hne
    simp only [notExistSetOf] at hne'
    have hemp : notExistSetOf clusterName lastCfg hs = ∅ :=
      Finset.card_eq_zero.mp (by omega)
    refine ⟨?_, ?_, ?_⟩
    · intro h; exact hemp
    · intro p hp hpne
      subst hp
      have hv : validateHorizontalScalingWithPolicy clusterName (some p)
          lastCfg hs = Except.ok () := by
        simp only [validateHorizontalScalingWithPolicy]
        rw [if_neg hne', if_pos (by simpa using hpne)]
      rw [hv]
      simp [hemp]
    · intro hpol
      rcases hpol with h | h <;> subst h
      · have hv : validateHorizontalScalingWithPolicy clusterName none
            lastCfg hs =
            strictPolicyValidation hs
              (collecteAllTypeOfInstancesFromOps hs
                (GenerateAllPodNamesToSet lastCfg.replicas lastCfg.instances
                  lastCfg.offlineInstances clusterName hs.componentName)
                lastCfg.offlineInstances.toFinset).1
              (collecteAllTypeOfInstancesFromOps hs
                (GenerateAllPodNamesToSet lastCfg.replicas lastCfg.instances
                  lastCfg.offlineInstances clusterName hs.componentName)
                lastCfg.offlineInstances.toFinset).2.1 := by
          simp only [validateHorizontalScalingWithPolicy]
          rw [if_neg hne', if_neg (by simp)]
        rw [hv, strict_side_iff]
        constructor
        · intro h2; exact ⟨hemp, h2.1, h2.2⟩
        · rintro ⟨-, h1, h2⟩; exact ⟨h1, h2⟩
      · have hv : validateHorizontalScalingWithPolicy clusterName
            (some HscaleValidatePolicyStrict) lastCfg hs =
            strictPolicyValidation hs
              (collecteAllTypeOfInstancesFromOps hs
                (GenerateAllPodNamesToSet lastCfg.replicas lastCfg.instances
                  lastCfg.offlineInstances clusterName hs.componentName)
                lastCfg.offlineInstances.toFinset).1
              (collecteAllTypeOfInstancesFromOps hs
                (GenerateAllPodNamesToSet lastCfg.replicas lastCfg.instances
                  lastCfg.offlineInstances clusterName hs.componentName)
                lastCfg.offlineInstances.toFinset).2.1 := by
          simp only [validateHorizontalScalingWithPolicy]
          rw [if_neg hne', if_neg (by simp)]
        rw [hv, strict_side_iff]
        constructor
        · intro h2; exact ⟨hemp, h2.1, h2.2⟩
        · rintro ⟨-, h1, h2⟩; exact ⟨h1, h2⟩

/-- A two-replica last configuration, for the C9 witness. -/
def exVLast : LastComponentConfiguration := ⟨2, [], []⟩

/-- A scale-in naming the same online instance twice, for the C9 witness:
fatal under the strict policy, accepted under a permissive one. -/
def exHsDup : HorizontalScaling :=
  ⟨"comp", none, some ⟨none, [], ["c-comp-0", "c-comp-0"]⟩, none⟩

/-- Witness for C9 at the permissive policy: a duplicated (but existing)
scale-in name passes validation exactly because its not-exist set is
empty. -/
theorem validation_policy_characterization_witness :
    ("permissive" ≠ HscaleValidatePolicyStrict) ∧
    (validateHorizontalScalingWithPolicy "c" (some "permissive") exVLast
        exHsDup = Except.ok () ↔
      notExistSetOf "c" exVLast exHsDup = ∅) :=
  ⟨by decide,
   (validation_policy_characterization "c" (some "permissive") exVLast
      exHsDup).2.1 "permissive" rfl (by decide)⟩
